import Mathlib

/-!
Shallow embedding of the GreenWise AI core (agents, LLM client, token
budgeter, memory store) together with proofs about the behaviours its
specification describes.

Modelling conventions:
* Python floats are modelled as exact rationals (`ℚ`); the float literals
  `1.15`, `1.3`, `0.3`, `0.5`, ... become the rationals `115/100`, `13/10`,
  `3/10`, `1/2`.
* `dict.get(key)` / `dict.get(key, default)` accesses are modelled with
  `Option` fields and `Option.getD`.
* Code that can raise is modelled with `Option`/`Except`; a Python
  `ZeroDivisionError` or `ValueError` becomes the error branch.
-/

namespace GreenWise

set_option maxRecDepth 16000

/-- Configuration constant `GreenWiseConfig.MAX_RECOMMENDATIONS` (config.py). -/
def MAX_RECOMMENDATIONS : Nat := 10

/-- Configuration constant `GreenWiseConfig.EMISSION_FACTOR_ELECTRICITY = 0.475`
(config.py), as an exact rational. -/
def EMISSION_FACTOR_ELECTRICITY : ℚ := 475 / 1000

/-! ### DataScoutAgent._detect_anomalies (agents/data_scout_agent.py) -/

/-- One facility entry of the `energy_consumption` mapping: the reading dict,
accessed in the source via `readings.get("current_kwh", 0)` and
`readings.get("baseline_kwh", 0)`. -/
structure Readings where
  current_kwh : Option ℚ
  baseline_kwh : Option ℚ
deriving DecidableEq

/-- The anomaly record appended by `_detect_anomalies`; `ty` models the
`"type"` key. -/
structure Anomaly where
  ty : String
  facility : String
  current : ℚ
  baseline : ℚ
  deviation_pct : ℚ
  severity : String
deriving DecidableEq

/-- `DataScoutAgent._detect_anomalies`, iterating over the facilities of the
`energy_consumption` dict in insertion order.  The Python body raises
`ZeroDivisionError` when the 15%-threshold test passes with a zero baseline
(the `deviation_pct` expression divides by `baseline`); that raise is modelled
as `none`. -/
def detect_anomalies : List (String × Readings) → Option (List Anomaly)
  | [] => some []
  | (facility, readings) :: rest =>
    let current := readings.current_kwh.getD 0
    let baseline := readings.baseline_kwh.getD 0
    if current > baseline * (115 / 100) then
      if baseline = 0 then
        none
      else
        match detect_anomalies rest with
        | none => none
        | some tail =>
          some ({ ty := "energy_spike"
                  facility := facility
                  current := current
                  baseline := baseline
                  deviation_pct := (current - baseline) / baseline * 100
                  severity := if current > baseline * (13 / 10) then "high" else "medium" } :: tail)
    else detect_anomalies rest

/-- Every emitted anomaly names a facility present in the input data. -/
theorem detect_anomalies_facility_mem :
    ∀ (data : List (String × Readings)) (l : List Anomaly),
      detect_anomalies data = some l →
      ∀ a ∈ l, a.facility ∈ data.map Prod.fst
  | [], l, h, a, ha => by
    simp only [detect_anomalies, Option.some.injEq] at h
    subst h
    cases ha
  | (fac, readings) :: rest, l, h, a, ha => by
    simp only [detect_anomalies] at h
    split at h
    · split at h
      · exact absurd h (by simp)
      · cases hrec : detect_anomalies rest with
        | none => rw [hrec] at h; exact absurd h (by simp)
        | some tail =>
          rw [hrec] at h
          simp only [Option.some.injEq] at h
          subst h
          rcases List.mem_cons.mp ha with rfl | hmem
          · simp
          · exact List.mem_cons_of_mem _ (detect_anomalies_facility_mem rest tail hrec a hmem)
    · exact List.mem_cons_of_mem _ (detect_anomalies_facility_mem rest l h a ha)

/-- C2: for a facility with positive baseline in the energy-consumption data
(facility keys distinct, as in a Python dict), an anomaly carrying that
facility name is emitted iff `current_kwh > 1.15 * baseline_kwh`, and any such
anomaly has `deviation_pct = (current - baseline) / baseline * 100` and
severity `"high"` iff `current > 1.3 * baseline`, else `"medium"`. -/
theorem detect_anomalies_spec :
    ∀ (data : List (String × Readings)) (l : List Anomaly),
      (data.map Prod.fst).Nodup →
      detect_anomalies data = some l →
      ∀ (fac : String) (readings : Readings), (fac, readings) ∈ data →
      ∀ b : ℚ, readings.baseline_kwh = some b → 0 < b →
      ((∃ a ∈ l, a.facility = fac) ↔ readings.current_kwh.getD 0 > b * (115 / 100)) ∧
      (∀ a ∈ l, a.facility = fac →
        a.deviation_pct = (readings.current_kwh.getD 0 - b) / b * 100 ∧
        a.severity = if readings.current_kwh.getD 0 > b * (13 / 10) then "high" else "medium")
  | [], l, _, h, fac, readings, hmem, b, hb, hbpos => absurd hmem (by simp)
  | (g, s) :: rest, l, hnd, h, fac, readings, hmem, b, hb, hbpos => by
    have hnd' := hnd
    rw [List.map_cons, List.nodup_cons] at hnd'
    obtain ⟨hgnotin, hndrest⟩ := hnd'
    rcases List.mem_cons.mp hmem with heq | hmemrest
    · -- the facility under consideration is the head entry
      have hfac : g = fac := (congrArg Prod.fst heq).symm
      have hread : s = readings := (congrArg Prod.snd heq).symm
      rw [hfac] at hgnotin
      rw [hfac, hread] at h
      simp only [detect_anomalies, hb, Option.getD_some] at h
      by_cases hcond : readings.current_kwh.getD 0 > b * (115 / 100)
      · rw [if_pos hcond, if_neg (by exact ne_of_gt hbpos)] at h
        cases hrec : detect_anomalies rest with
        | none => rw [hrec] at h; exact absurd h (by simp)
        | some tail =>
          rw [hrec] at h
          simp only [Option.some.injEq] at h
          subst h
          constructor
          · constructor
            · intro _; exact hcond
            · intro _; exact ⟨_, List.mem_cons_self _ _, rfl⟩
          · intro a ha hafac
            rcases List.mem_cons.mp ha with rfl | hatail
            · exact ⟨rfl, rfl⟩
            · exact absurd (hafac ▸ detect_anomalies_facility_mem rest tail hrec a hatail)
                hgnotin
      · rw [if_neg hcond] at h
        constructor
        · constructor
          · rintro ⟨a, ha, hafac⟩
            exact absurd (hafac ▸ detect_anomalies_facility_mem rest l h a ha) hgnotin
          · intro hc; exact absurd hc hcond
        · intro a ha hafac
          exact absurd (hafac ▸ detect_anomalies_facility_mem rest l h a ha) hgnotin
    · -- the facility under consideration sits in the tail
      have hfacinrest : fac ∈ rest.map Prod.fst :=
        List.mem_map.mpr ⟨(fac, readings), hmemrest, rfl⟩
      have hgne : g ≠ fac := fun hgf => hgnotin (hgf ▸ hfacinrest)
      simp only [detect_anomalies] at h
      split at h
      · split at h
        · exact absurd h (by simp)
        · cases hrec : detect_anomalies rest with
          | none => rw [hrec] at h; exact absurd h (by simp)
          | some tail =>
            rw [hrec] at h
            simp only [Option.some.injEq] at h
            subst h
            have ih := detect_anomalies_spec rest tail hndrest hrec fac readings
              hmemrest b hb hbpos
            constructor
            · constructor
              · rintro ⟨a, ha, hafac⟩
                rcases List.mem_cons.mp ha with rfl | hatail
                · exact absurd hafac hgne
                · exact ih.1.mp ⟨a, hatail, hafac⟩
              · intro hc
                obtain ⟨a, ha, hafac⟩ := ih.1.mpr hc
                exact ⟨a, List.mem_cons_of_mem _ ha, hafac⟩
            · intro a ha hafac
              rcases List.mem_cons.mp ha with rfl | hatail
              · exact absurd hafac hgne
              · exact ih.2 a hatail hafac
      · exact detect_anomalies_spec rest l hndrest h fac readings hmemrest b hb hbpos

/-- Concrete data for exercising `detect_anomalies_spec`: one facility 25%
above baseline. -/
def anomalyWitnessData : List (String × Readings) :=
  [("plant_a", { current_kwh := some 500, baseline_kwh := some 400 })]

/-- The anomaly list `detect_anomalies` produces on `anomalyWitnessData`. -/
def anomalyWitnessOut : List Anomaly :=
  [{ ty := "energy_spike", facility := "plant_a", current := 500, baseline := 400,
     deviation_pct := 25, severity := "medium" }]

/-- Witness for `detect_anomalies_spec` at a concrete facility reading. -/
theorem detect_anomalies_spec_witness :
    ((∃ a ∈ anomalyWitnessOut, a.facility = "plant_a") ↔
      (Readings.mk (some 500) (some 400)).current_kwh.getD 0 > 400 * (115 / 100)) ∧
    (∀ a ∈ anomalyWitnessOut, a.facility = "plant_a" →
      a.deviation_pct = ((Readings.mk (some 500) (some 400)).current_kwh.getD 0 - 400) / 400 * 100 ∧
      a.severity = if (Readings.mk (some 500) (some 400)).current_kwh.getD 0 > 400 * (13 / 10)
        then "high" else "medium") :=
  detect_anomalies_spec anomalyWitnessData anomalyWitnessOut (by decide)
    (by with_unfolding_all decide)
    "plant_a" (Readings.mk (some 500) (some 400)) (by decide) 400 rfl
    (by with_unfolding_all decide)

/-- C10: `_detect_anomalies` is total whenever every reading has a non-zero
baseline or a non-positive current value; and the division-by-zero branch is
reachable: a facility with `baseline_kwh = 0` and `current_kwh > 0` passes the
15%-threshold test and the `deviation_pct` expression divides by zero, so the
call fails. -/
theorem detect_anomalies_div_by_zero :
    (∀ data : List (String × Readings),
      (∀ p ∈ data, (p.2.baseline_kwh.getD 0 ≠ 0) ∨ (p.2.current_kwh.getD 0 ≤ 0)) →
      ∃ l, detect_anomalies data = some l) ∧
    detect_anomalies [("facility_a", { current_kwh := some 100, baseline_kwh := some 0 })]
      = none := by
  constructor
  · intro data
    induction data with
    | nil => intro _; exact ⟨[], rfl⟩
    | cons p rest ih =>
      intro hpre
      obtain ⟨fac, readings⟩ := p
      obtain ⟨tail, htail⟩ := ih (fun q hq => hpre q (List.mem_cons_of_mem _ hq))
      simp only [detect_anomalies]
      by_cases hcond : readings.current_kwh.getD 0 > readings.baseline_kwh.getD 0 * (115 / 100)
      · rw [if_pos hcond]
        by_cases hb0 : readings.baseline_kwh.getD 0 = 0
        · exfalso
          rcases hpre (fac, readings) (List.mem_cons_self _ _) with hbz | hcz
          · exact hbz hb0
          · rw [hb0, zero_mul] at hcond
            exact absurd hcond (not_lt.mpr hcz)
        · rw [if_neg hb0, htail]
          exact ⟨_, rfl⟩
      · rw [if_neg hcond]
        exact ⟨tail, htail⟩
  · with_unfolding_all decide

/-- Witness for the totality half of `detect_anomalies_div_by_zero`. -/
theorem detect_anomalies_div_by_zero_witness :
    ∃ l, detect_anomalies [("plant_b", { current_kwh := some 300, baseline_kwh := some 400 })]
      = some l :=
  detect_anomalies_div_by_zero.1 _ (by with_unfolding_all decide)

/-! ### ContextManager (llm/context_manager.py)

Text is modelled at the tokenizer's level: a text is its list of token ids
(`tiktoken`'s `encode`/`decode` become the identity) and
`ContextManager.count_tokens` is the number of tokens.  The float comparisons
`system_tokens > remaining_tokens * 0.3` and
`current_tokens > remaining_tokens * 0.5` are read exactly over the
rationals, i.e. as `10 * system_tokens > 3 * remaining_tokens` and
`2 * current_tokens > remaining_tokens`; `int(remaining_tokens * 0.5)` is
`remaining_tokens / 2` rounded toward zero. -/

/-- A token id. -/
abbrev Token := Nat

/-- `ContextManager.count_tokens`: the number of tokens of a text. -/
def count_tokens (text : List Token) : Nat := text.length

/-- The token sequence of the marker string `"\n... (truncated)"` appended by
`_truncate_data`.  The individual ids are immaterial; what matters is that it
is a fixed non-empty sequence. -/
def truncation_marker : List Token := [10, 46, 46, 46, 40]

/-- `ContextManager._truncate_data`: a text within the limit is returned
unchanged; otherwise it is cut to `max_tokens` tokens and the truncation
marker is appended (the source decodes the clipped tokens and appends the
marker string). -/
def truncate_data (text : List Token) (max_tokens : Nat) : List Token :=
  if text.length ≤ max_tokens then text
  else text.take max_tokens ++ truncation_marker

/-- The token sequence of the header `"## Historical Context\n"` emitted by
`_format_history`. -/
def history_header : List Token := [35, 35, 72]

/-- The token sequence of the header `"## Recent History\n"` emitted by
`_truncate_history`. -/
def recent_history_header : List Token := [35, 35, 82]

/-- `ContextManager._format_history`: keep the `max_items` most recent
entries behind a header.  A history entry is modelled by the token list of
its formatted text.  `history[-max_items:]` with `max_items = 0` is the whole
list in Python, hence the extra guard. -/
def format_history (history : List (List Token)) (max_items : Nat) : List Token :=
  let recent :=
    if history.length > max_items then
      if max_items = 0 then history else history.drop (history.length - max_items)
    else history
  history_header ++ recent.flatten

/-- The entry-accumulation loop of `ContextManager._truncate_history`: walk
the entries (already newest-first), stop at the first entry that would
overflow the budget, and keep the accepted entries oldest-first
(`items.insert(0, ...)`). -/
def fit_history_items : List (List Token) → Int → Int → List (List Token)
  | [], _, _ => []
  | e :: rest, max_tok, cur =>
    if (cur + e.length : Int) > max_tok then []
    else fit_history_items rest max_tok (cur + e.length) ++ [e]

/-- `ContextManager._truncate_history`. -/
def truncate_history (history : List (List Token)) (max_tok : Int) : List Token :=
  recent_history_header ++ (fit_history_items history.reverse max_tok 0).flatten

/-- The part of `ContextManager.build_context` after the system-prompt gate
(steps 2 and 3 of the source: current data, then history), which can no
longer raise.  `remaining_tokens` is carried as an integer because it may go
negative after an oversized truncated block, exactly as in Python.  An absent
or empty history (`if history:`) contributes nothing. -/
def build_context_rest (system_prompt current_data : List Token)
    (history : Option (List (List Token))) (max_history_items : Nat)
    (max_tokens : Nat) : List (List Token) :=
  let remaining_tokens : Int := (max_tokens : Int) - count_tokens system_prompt
  let current_tokens := count_tokens current_data
  let current_data_str :=
    if 2 * (current_tokens : Int) > remaining_tokens then
      truncate_data current_data (remaining_tokens / 2).toNat
    else current_data
  let current_tokens := count_tokens current_data_str
  let remaining_tokens := remaining_tokens - current_tokens
  match history with
  | some (e :: es) =>
    let history_str := format_history (e :: es) max_history_items
    let history_tokens := count_tokens history_str
    if (history_tokens : Int) ≤ remaining_tokens then
      [system_prompt, current_data_str, history_str]
    else
      [system_prompt, current_data_str, truncate_history (e :: es) remaining_tokens]
  | _ => [system_prompt, current_data_str]

/-- `ContextManager.build_context`.  The `ValueError("System prompt too
long")` raise is the `.error` branch; everything after the gate is
`build_context_rest`.  The source returns `"\n\n".join(context_parts)`; the
model returns `context_parts` itself (the join is presentation only). -/
def build_context (system_prompt current_data : List Token)
    (history : Option (List (List Token))) (max_history_items : Nat)
    (max_tokens : Nat) : Except String (List (List Token)) :=
  if 10 * (count_tokens system_prompt : Int) > 3 * (max_tokens : Int) then
    .error "System prompt too long"
  else
    .ok (build_context_rest system_prompt current_data history max_history_items max_tokens)

/-- C7: a system prompt consuming exactly 30% of the token ceiling is
accepted (`build_context` returns a context), while a system prompt strictly
above 30% of the ceiling makes `build_context` fail with
`ValueError("System prompt too long")`. -/
theorem build_context_system_prompt_gate
    (system_prompt current_data : List Token) (history : Option (List (List Token)))
    (max_history_items max_tokens : Nat) :
    (10 * count_tokens system_prompt = 3 * max_tokens →
      ∃ parts, build_context system_prompt current_data history max_history_items max_tokens
        = .ok parts) ∧
    (10 * count_tokens system_prompt > 3 * max_tokens →
      build_context system_prompt current_data history max_history_items max_tokens
        = .error "System prompt too long") := by
  constructor
  · intro heq
    unfold build_context
    rw [if_neg (by omega)]
    exact ⟨_, rfl⟩
  · intro hgt
    unfold build_context
    rw [if_pos (by omega)]

/-- Witness for `build_context_system_prompt_gate`: with a ceiling of 10, a
3-token system prompt (exactly 30%) is accepted and a 4-token one is
rejected. -/
theorem build_context_system_prompt_gate_witness :
    (∃ parts, build_context [0, 1, 2] [5] none 5 10 = .ok parts) ∧
    build_context [0, 1, 2, 3] [5] none 5 10 = .error "System prompt too long" :=
  ⟨(build_context_system_prompt_gate [0, 1, 2] [5] none 5 10).1 (by decide),
   (build_context_system_prompt_gate [0, 1, 2, 3] [5] none 5 10).2 (by decide)⟩

/-- The share of the remaining budget allotted to the current-data block:
`int(remaining_tokens * 0.5)` with `remaining_tokens` the budget left after
the system prompt. -/
def data_share (system_prompt : List Token) (max_tokens : Nat) : Nat :=
  (max_tokens - count_tokens system_prompt) / 2

/-- C8 (amended): when the serialized current data exceeds 50% of the budget
remaining after the system prompt, the current-data block placed in the
context is the data cut to the allotted share with the truncation marker
appended: its token count is the share plus the marker's token count (so at
most the share plus the marker length, not the share itself), and it ends
with the truncation marker. -/
theorem build_context_truncates_current_data
    (system_prompt current_data : List Token) (history : Option (List (List Token)))
    (max_history_items max_tokens : Nat)
    (hsys : 10 * count_tokens system_prompt ≤ 3 * max_tokens)
    (hover : 2 * count_tokens current_data > max_tokens - count_tokens system_prompt) :
    ∃ rest,
      build_context system_prompt current_data history max_history_items max_tokens
        = .ok (system_prompt ::
            (current_data.take (data_share system_prompt max_tokens) ++ truncation_marker)
            :: rest) ∧
      count_tokens
          (current_data.take (data_share system_prompt max_tokens) ++ truncation_marker)
        = data_share system_prompt max_tokens + count_tokens truncation_marker ∧
      truncation_marker.IsSuffix
        (current_data.take (data_share system_prompt max_tokens) ++ truncation_marker) := by
  have hsm : count_tokens system_prompt ≤ max_tokens := by omega
  have hshare : data_share system_prompt max_tokens < count_tokens current_data := by
    unfold data_share
    omega
  have hblock :
      truncate_data current_data
        (((max_tokens : Int) - count_tokens system_prompt) / 2).toNat
        = current_data.take (data_share system_prompt max_tokens) ++ truncation_marker := by
    have htonat : (((max_tokens : Int) - count_tokens system_prompt) / 2).toNat
        = data_share system_prompt max_tokens := by
      unfold data_share
      omega
    rw [htonat]
    unfold truncate_data
    rw [if_neg (by unfold count_tokens at hshare; omega)]
  have hlen : count_tokens
      (current_data.take (data_share system_prompt max_tokens) ++ truncation_marker)
      = data_share system_prompt max_tokens + count_tokens truncation_marker := by
    unfold count_tokens at hshare ⊢
    rw [List.length_append, List.length_take]
    omega
  have hrest : ∃ rest,
      build_context_rest system_prompt current_data history max_history_items max_tokens
        = system_prompt ::
            (current_data.take (data_share system_prompt max_tokens) ++ truncation_marker)
            :: rest := by
    unfold build_context_rest
    dsimp only
    rw [if_pos (by omega), hblock]
    cases history with
    | none => exact ⟨_, rfl⟩
    | some l =>
      cases l with
      | nil => exact ⟨_, rfl⟩
      | cons e es =>
        dsimp only
        by_cases hfit : (count_tokens (format_history (e :: es) max_history_items) : Int)
            ≤ (max_tokens : Int) - count_tokens system_prompt -
              count_tokens (current_data.take (data_share system_prompt max_tokens)
                ++ truncation_marker)
        · rw [if_pos hfit]
          exact ⟨_, rfl⟩
        · rw [if_neg hfit]
          exact ⟨_, rfl⟩
  obtain ⟨rest, hrest⟩ := hrest
  refine ⟨rest, ?_, hlen, ⟨_, rfl⟩⟩
  unfold build_context
  rw [if_neg (by omega), hrest]

/-- Witness for `build_context_truncates_current_data` at a concrete
overflowing input (ceiling 8, empty system prompt, 5 data tokens, share 4). -/
theorem build_context_truncates_current_data_witness :
    ∃ rest,
      build_context [] [1, 2, 3, 4, 5] none 5 8
        = .ok ([] :: ([1, 2, 3, 4, 5].take (data_share [] 8) ++ truncation_marker) :: rest) ∧
      count_tokens ([1, 2, 3, 4, 5].take (data_share [] 8) ++ truncation_marker)
        = data_share [] 8 + count_tokens truncation_marker ∧
      truncation_marker.IsSuffix
        ([1, 2, 3, 4, 5].take (data_share [] 8) ++ truncation_marker) :=
  build_context_truncates_current_data [] [1, 2, 3, 4, 5] none 5 8
    (by decide) (by decide)

/-- C8 counterexample: at the same concrete overflowing input the block that
`build_context` returns has 9 tokens, strictly more than the allotted share
of 4 — the claim that the block's token count is at most the allotted share
is false on the code (the marker is appended after cutting to the full
share). -/
theorem build_context_block_exceeds_share :
    2 * count_tokens [1, 2, 3, 4, 5] > 8 - count_tokens ([] : List Token) ∧
    build_context [] [1, 2, 3, 4, 5] none 5 8
      = .ok [[], [1, 2, 3, 4] ++ truncation_marker] ∧
    ¬ count_tokens ([1, 2, 3, 4] ++ truncation_marker)
        ≤ (8 - count_tokens ([] : List Token)) / 2 := by
  refine ⟨by decide, ?_, by decide⟩
  rfl

/-! ### GeminiClient (llm/gemini_client.py) -/

/-- Substring test on character lists: Python's `needle in hay`.  The empty
needle is contained in everything. -/
def charsContain (needle : List Char) : List Char → Bool
  | [] => needle.isEmpty
  | c :: t => needle.isPrefixOf (c :: t) || charsContain needle t

/-- Python's `needle in hay` on strings. -/
def containsSubstring (hay needle : String) : Bool :=
  charsContain needle.toList hay.toList

/-- Python's `str.lower()`, character by character. -/
def lowerString (s : String) : String :=
  ⟨s.toList.map Char.toLower⟩

/-- The `rate_limit_indicators` list of `GeminiClient._is_rate_limit_error`. -/
def rate_limit_indicators : List String :=
  ["429", "Resource has been exhausted", "exceeded your rate limit", "RPM"]

/-- `GeminiClient._is_rate_limit_error`: some indicator occurs in the message,
both sides lower-cased. -/
def is_rate_limit_error (message : String) : Bool :=
  rate_limit_indicators.any fun indicator =>
    containsSubstring (lowerString message) (lowerString indicator)

/-- A parsed tool call (`{"name": ..., "args": ...}`). -/
structure ToolCall where
  name : String
  args : List (String × String)
deriving DecidableEq

/-- The successfully parsed Gemini response of one attempt: the `result` dict
built in the `try` block (notably, it carries no `error` key). -/
structure GenResponse where
  text : String
  tool_calls : List ToolCall
deriving DecidableEq

/-- The dict `generate_with_tools` returns: `text`, `tool_calls` and the
optional `error` key. -/
structure GenResult where
  text : String
  tool_calls : List ToolCall
  error : Option String
deriving DecidableEq

/-- One attempt of the `for attempt in range(1, max_retries + 1)` loop body:
either the parsed response (the `try` block succeeded) or the exception
message `str(e)`. -/
abbrev AttemptOutcome := Except String GenResponse

/-- The retry loop of `GeminiClient.generate_with_tools`, with the attempt
outcomes supplied as a function of the attempt number.  The fuel argument
equals the number of loop iterations still permitted; the loop starts at
attempt 1 with fuel `max_retries`.  Falling off the loop (only possible when
`max_retries = 0`, where Python returns `None`) is `none`. -/
def attempt_loop (outcome : Nat → AttemptOutcome) (max_retries : Nat) :
    Nat → Nat → Option GenResult
  | _, 0 => none
  | attempt, fuel + 1 =>
    match outcome attempt with
    | .ok response => some { text := response.text, tool_calls := response.tool_calls,
                             error := none }
    | .error e =>
      if attempt < max_retries ∧ is_rate_limit_error e = true then
        attempt_loop outcome max_retries (attempt + 1) fuel
      else
        some { text := "Error: " ++ e, tool_calls := [], error := some e }

/-- `GeminiClient.generate_with_tools` as a function of the per-attempt
outcomes. -/
def generate_with_tools (outcome : Nat → AttemptOutcome) (max_retries : Nat) :
    Option GenResult :=
  attempt_loop outcome max_retries 1 max_retries

/-- Reaching attempt `k`: while every earlier attempt fails with a rate-limit
error, the loop arrives at attempt `k` with the corresponding fuel. -/
theorem attempt_loop_reach (outcome : Nat → AttemptOutcome) (max_retries k : Nat)
    (hk2 : k ≤ max_retries)
    (hpre : ∀ j, 1 ≤ j → j < k →
      ∃ e, outcome j = .error e ∧ is_rate_limit_error e = true) :
    ∀ a, 1 ≤ a → a ≤ k →
      attempt_loop outcome max_retries a (max_retries + 1 - a)
        = attempt_loop outcome max_retries k (max_retries + 1 - k) := by
  intro a ha1 hak
  obtain ⟨d, hd⟩ : ∃ d, k - a = d := ⟨_, rfl⟩
  induction d generalizing a with
  | zero =>
    have : a = k := by omega
    subst this
    rfl
  | succ d ihd =>
    have hlt : a < k := by omega
    obtain ⟨e, he, hrl⟩ := hpre a ha1 hlt
    have hfuel : max_retries + 1 - a = (max_retries + 1 - (a + 1)) + 1 := by omega
    rw [hfuel]
    simp only [attempt_loop, he]
    rw [if_pos ⟨by omega, hrl⟩]
    exact ihd (a + 1) (by omega) (by omega) (by omega)

/-- C5: with `max_retries ≥ 1` and rate-limit failures on every attempt
before `k ≤ max_retries`: if attempt `k` parses successfully, the parsed
result is returned with no `error` key; if attempt `k` fails with a
non-rate-limit error, that same attempt returns the error result (text
`"Error: " + message`, `error` carrying the raw message); and if attempt `k`
is the last permitted attempt (`k = max_retries`), an error there — rate
limit or not — is returned rather than retried. -/
theorem generate_with_tools_retry_spec
    (outcome : Nat → AttemptOutcome) (max_retries k : Nat)
    (_hmax : 1 ≤ max_retries) (hk1 : 1 ≤ k) (hk2 : k ≤ max_retries)
    (hpre : ∀ j, 1 ≤ j → j < k →
      ∃ e, outcome j = .error e ∧ is_rate_limit_error e = true) :
    (∀ r, outcome k = .ok r →
      generate_with_tools outcome max_retries
        = some { text := r.text, tool_calls := r.tool_calls, error := none }) ∧
    (∀ e, outcome k = .error e → is_rate_limit_error e = false →
      generate_with_tools outcome max_retries
        = some { text := "Error: " ++ e, tool_calls := [], error := some e }) ∧
    (∀ e, outcome k = .error e → k = max_retries →
      generate_with_tools outcome max_retries
        = some { text := "Error: " ++ e, tool_calls := [], error := some e }) := by
  have hstart : generate_with_tools outcome max_retries
      = attempt_loop outcome max_retries k (max_retries + 1 - k) := by
    unfold generate_with_tools
    have h := attempt_loop_reach outcome max_retries k hk2 hpre 1 le_rfl hk1
    simpa using h
  have hfuel : max_retries + 1 - k = (max_retries - k) + 1 := by omega
  refine ⟨?_, ?_, ?_⟩
  · intro r hr
    rw [hstart, hfuel]
    simp only [attempt_loop, hr]
  · intro e he hnrl
    rw [hstart, hfuel]
    simp only [attempt_loop, he]
    rw [if_neg (by simp [hnrl])]
  · intro e he hkm
    rw [hstart, hfuel]
    simp only [attempt_loop, he]
    rw [if_neg (by omega)]

/-- Concrete attempt outcomes: rate-limit failures on attempts 1 and 2,
success on attempt 3. -/
def retryWitnessOutcome : Nat → AttemptOutcome := fun j =>
  if j ≤ 2 then .error "429 Resource has been exhausted (check quota)."
  else .ok { text := "Recommendation: reduce HVAC load", tool_calls := [] }

/-- Witness for `generate_with_tools_retry_spec`: two rate-limit failures
followed by a success (with `max_retries = 3`) yield the successful result
with no error key. -/
theorem generate_with_tools_retry_spec_witness :
    generate_with_tools retryWitnessOutcome 3
      = some { text := "Recommendation: reduce HVAC load", tool_calls := [], error := none } :=
  (generate_with_tools_retry_spec retryWitnessOutcome 3 3 (by decide) (by decide) (by decide)
    (fun j h1 h2 => by
      have hj : j = 1 ∨ j = 2 := by omega
      rcases hj with rfl | rfl
      · exact ⟨_, rfl, by decide⟩
      · exact ⟨_, rfl, by decide⟩)).1
    { text := "Recommendation: reduce HVAC load", tool_calls := [] } rfl

/-! ### EcoPlannerAgent._prioritize_and_format (agents/ecoplanner_agent.py) -/

/-- An enriched recommendation dict as `_prioritize_and_format` sees it: the
two numeric keys it reads via `.get(..., 0)` (absent keys are `none`) plus
the rest of the dict, opaque to sorting and totalling (`payload`). -/
structure EnrichedRecommendation where
  co2_savings_kg : Option ℚ
  energy_savings_kwh : Option ℚ
  payload : String
deriving DecidableEq

/-- The sort key `x.get("co2_savings_kg", 0)`. -/
def co2Of (r : EnrichedRecommendation) : ℚ := r.co2_savings_kg.getD 0

/-- `r.get("energy_savings_kwh", 0)`. -/
def energyOf (r : EnrichedRecommendation) : ℚ := r.energy_savings_kwh.getD 0

/-- The ordering of `sorted(recommendations, key=lambda x:
x.get("co2_savings_kg", 0), reverse=True)`: `a` may precede `b` when `b`'s
key is at most `a`'s.  Python's sort is stable, and a stable descending sort
is exactly `List.insertionSort` with this relation. -/
def descByCo2 (a b : EnrichedRecommendation) : Prop := co2Of b ≤ co2Of a

instance : DecidableRel descByCo2 :=
  fun a b => inferInstanceAs (Decidable (co2Of b ≤ co2Of a))

instance : IsTotal EnrichedRecommendation descByCo2 :=
  ⟨fun a b => le_total (co2Of b) (co2Of a)⟩

instance : IsTrans EnrichedRecommendation descByCo2 :=
  ⟨fun _ _ _ hab hbc => le_trans hbc hab⟩

/-- The Plan dict built by `_prioritize_and_format` (`timestamp` is the
`datetime.now().isoformat()` string, passed in as `now`). -/
structure Plan where
  timestamp : String
  recommendations : List EnrichedRecommendation
  total_co2_savings_kg : ℚ
  total_energy_savings_kwh : ℚ
  implementation_priority : String
deriving DecidableEq

/-- `EcoPlannerAgent._prioritize_and_format`: stable-sort descending by CO2
savings, total CO2 and energy over the sorted (un-truncated) list, truncate
to `MAX_RECOMMENDATIONS`, and set the priority flag. -/
def prioritize_and_format (now : String)
    (recommendations : List EnrichedRecommendation) : Plan :=
  let sorted_recs := recommendations.insertionSort descByCo2
  let total_co2_savings := (sorted_recs.map co2Of).sum
  let total_energy_savings := (sorted_recs.map energyOf).sum
  { timestamp := now
    recommendations := sorted_recs.take MAX_RECOMMENDATIONS
    total_co2_savings_kg := total_co2_savings
    total_energy_savings_kwh := total_energy_savings
    implementation_priority := if total_co2_savings > 100 then "high" else "medium" }

/-- Stability of the sort: for each key value, the sorted list keeps the
recommendations with that key in their original order. -/
theorem insertionSort_filter_key (recs : List EnrichedRecommendation) (c : ℚ) :
    (recs.insertionSort descByCo2).filter (fun r => decide (co2Of r = c))
      = recs.filter (fun r => decide (co2Of r = c)) := by
  set p : EnrichedRecommendation → Bool := fun r => decide (co2Of r = c) with hp
  have hpair : (recs.filter p).Pairwise descByCo2 := by
    refine List.pairwise_of_forall_mem_list ?_
    intro a ha b hb
    have hac : co2Of a = c := by simpa [hp] using List.of_mem_filter ha
    have hbc : co2Of b = c := by simpa [hp] using List.of_mem_filter hb
    unfold descByCo2
    rw [hac, hbc]
  have h1 : List.Sublist (recs.filter p) (recs.insertionSort descByCo2) :=
    List.sublist_insertionSort hpair (List.filter_sublist recs)
  have h4 : (recs.filter p).filter p = recs.filter p :=
    List.filter_eq_self.mpr fun a ha => List.of_mem_filter ha
  have h3 := h1.filter p
  rw [h4] at h3
  have hperm : List.Perm ((recs.insertionSort descByCo2).filter p) (recs.filter p) :=
    (List.perm_insertionSort descByCo2 recs).filter p
  exact (h3.eq_of_length hperm.length_eq.symm).symm

/-- Filtering a prefix (here: the truncation to the maximum count) yields a
prefix of the filtered list. -/
theorem filter_take_prefix {α : Type} (p : α → Bool) (l : List α) (n : Nat) :
    ((l.take n).filter p).IsPrefix (l.filter p) := by
  conv_rhs => rw [← List.take_append_drop n l]
  rw [List.filter_append]
  exact List.prefix_append _ _

/-- C4: a Plan's recommendations number at most `MAX_RECOMMENDATIONS`, are
ordered non-increasingly by `co2_savings_kg`, and recommendations with equal
CO2 savings keep their prior relative order (for each key value, the kept
recommendations form a prefix of the input's recommendations with that key,
in order). -/
theorem plan_recommendations_sorted_truncated_stable
    (now : String) (recs : List EnrichedRecommendation) :
    (prioritize_and_format now recs).recommendations.length ≤ MAX_RECOMMENDATIONS ∧
    (prioritize_and_format now recs).recommendations.Pairwise
      (fun a b => co2Of b ≤ co2Of a) ∧
    ∀ c : ℚ,
      ((prioritize_and_format now recs).recommendations.filter
          (fun r => decide (co2Of r = c))).IsPrefix
        (recs.filter (fun r => decide (co2Of r = c))) := by
  refine ⟨?_, ?_, ?_⟩
  · unfold prioritize_and_format
    dsimp only
    rw [List.length_take]
    exact min_le_left _ _
  · unfold prioritize_and_format
    dsimp only
    have hs : (recs.insertionSort descByCo2).Pairwise descByCo2 :=
      List.sorted_insertionSort descByCo2 recs
    exact List.Pairwise.sublist (List.take_sublist _ _) hs
  · intro c
    unfold prioritize_and_format
    dsimp only
    have h := filter_take_prefix (fun r => decide (co2Of r = c))
      (recs.insertionSort descByCo2) MAX_RECOMMENDATIONS
    rwa [insertionSort_filter_key] at h

/-- C1 (amended): a Plan's totals are the sums over the whole enriched
recommendation list before truncation; whenever the input list is within the
configured maximum (so nothing is truncated) they coincide with the sums over
the recommendations contained in the Plan. -/
theorem plan_totals (now : String) (recs : List EnrichedRecommendation) :
    (prioritize_and_format now recs).total_co2_savings_kg = (recs.map co2Of).sum ∧
    (prioritize_and_format now recs).total_energy_savings_kwh = (recs.map energyOf).sum ∧
    (recs.length ≤ MAX_RECOMMENDATIONS →
      (prioritize_and_format now recs).total_co2_savings_kg
        = ((prioritize_and_format now recs).recommendations.map co2Of).sum ∧
      (prioritize_and_format now recs).total_energy_savings_kwh
        = ((prioritize_and_format now recs).recommendations.map energyOf).sum) := by
  have hperm := List.perm_insertionSort descByCo2 recs
  have hco2 : ((recs.insertionSort descByCo2).map co2Of).sum = (recs.map co2Of).sum :=
    (hperm.map co2Of).sum_eq
  have hen : ((recs.insertionSort descByCo2).map energyOf).sum = (recs.map energyOf).sum :=
    (hperm.map energyOf).sum_eq
  refine ⟨hco2, hen, ?_⟩
  intro hlen
  have htake : (recs.insertionSort descByCo2).take MAX_RECOMMENDATIONS
      = recs.insertionSort descByCo2 :=
    List.take_of_length_le (by rw [List.length_insertionSort]; exact hlen)
  constructor
  · show ((recs.insertionSort descByCo2).map co2Of).sum
      = (((recs.insertionSort descByCo2).take MAX_RECOMMENDATIONS).map co2Of).sum
    rw [htake]
  · show ((recs.insertionSort descByCo2).map energyOf).sum
      = (((recs.insertionSort descByCo2).take MAX_RECOMMENDATIONS).map energyOf).sum
    rw [htake]

/-- Two concrete enriched recommendations (fewer than the maximum). -/
def ecoWitnessRecs : List EnrichedRecommendation :=
  [⟨some 2, some 3, "led retrofit"⟩, ⟨some 5, none, "hvac setback"⟩]

/-- Witness for `plan_totals`: with 2 recommendations nothing is truncated and
the totals match the contained recommendations. -/
theorem plan_totals_witness :
    (prioritize_and_format "2024-01-01T00:00:00" ecoWitnessRecs).total_co2_savings_kg
      = ((prioritize_and_format "2024-01-01T00:00:00" ecoWitnessRecs).recommendations.map
          co2Of).sum ∧
    (prioritize_and_format "2024-01-01T00:00:00" ecoWitnessRecs).total_energy_savings_kwh
      = ((prioritize_and_format "2024-01-01T00:00:00" ecoWitnessRecs).recommendations.map
          energyOf).sum :=
  (plan_totals "2024-01-01T00:00:00" ecoWitnessRecs).2.2 (by decide)

/-- C1 counterexample: eleven identical recommendations each saving 1 kg CO2.
The Plan keeps only ten of them, yet its `total_co2_savings_kg` (computed
before truncation) says 11, so the total does not equal the sum over the
contained recommendations. -/
theorem plan_totals_counterexample :
    ¬ (prioritize_and_format "t"
          (List.replicate 11 ⟨some 1, some 1, "dup"⟩)).total_co2_savings_kg
        = (((prioritize_and_format "t"
          (List.replicate 11 ⟨some 1, some 1, "dup"⟩)).recommendations).map co2Of).sum := by
  with_unfolding_all decide

/-! ### EcoPlannerAgent._generate_rule_based_recommendations -/

/-- An anomaly dict as the rule-based generator reads it (every key via
`.get`, so each field may be absent). -/
structure AnomalyDict where
  ty : Option String
  facility : Option String
  current : Option ℚ
  baseline : Option ℚ
  deviation_pct : Option ℚ
  severity : Option String
deriving DecidableEq

/-- The context package as `_generate_rule_based_recommendations` reads it.
The nested `.get` chains of the source are flattened: `total_energy_kwh` and
`total_emissions_kg_co2` come from `context.get("operational_summary", {})`,
`baseline_energy_kwh` from `context.get("historical_baseline", {})` and
`grid_carbon_intensity` from `context.get("external_context", {})`; a missing
dict or key is `none`. -/
structure RuleContext where
  total_energy_kwh : Option ℚ
  total_emissions_kg_co2 : Option ℚ
  anomalies : List AnomalyDict
  baseline_energy_kwh : Option ℚ
  grid_carbon_intensity : Option ℚ
deriving DecidableEq

/-- Python's `x or y` for an optional number `x`: `None`, `0` and `0.0` are
falsy. -/
def pyOrQ (x : Option ℚ) (y : ℚ) : ℚ :=
  match x with
  | none => y
  | some v => if v = 0 then y else v

/-- Round half to even (Python's `round`), exactly over the rationals. -/
def roundHalfEven (q : ℚ) : ℤ :=
  let f := ⌊q⌋
  if q - f < 1 / 2 then f
  else if 1 / 2 < q - f then f + 1
  else if 2 ∣ f then f else f + 1

/-- Python's `round(x, 1)`, exactly over the rationals (Python rounds the
binary double nearest `x`; the two agree except on values whose decimals the
double cannot represent, which never affects the sign facts proved here). -/
def pyRound1 (q : ℚ) : ℚ := (roundHalfEven (q * 10) : ℚ) / 10

/-- A recommendation produced by the rule-based generator (all keys
present). -/
structure Recommendation where
  id : String
  description : String
  energy_savings_kwh : ℚ
  complexity : String
  timeline : String
  category : String
  rationale : String
deriving DecidableEq

/-- Model of Python f-string numeric interpolation (`:.0f`, `:.1f`, `:.2f`):
the decimal rendering differs from `toString`, but every property proved
below depends only on the interpolated number becoming some string. -/
def fmtQ (q : ℚ) : String := toString q

/-- The HVAC scheduling / setback recommendation. -/
def hvac_recommendation (total_energy : ℚ) : Recommendation :=
  { id := "hvac_schedule_optimization"
    description := "Tighten HVAC scheduling with automatic after-hours setbacks and occupancy-based control. Target chillers and air handlers in administrative zones where loads stay high despite low night occupancy."
    energy_savings_kwh := pyRound1 (max (total_energy * (8 / 100)) 35)
    complexity := "medium"
    timeline := "immediate"
    category := "HVAC"
    rationale := "HVAC loads account for the majority of the current " ++ fmtQ total_energy
      ++ " kWh day. A 2-3°C setback outside occupied hours typically trims 6-10% without occupant impact." }

/-- The load-shifting recommendation. -/
def load_shifting_recommendation (total_energy grid_intensity : ℚ) : Recommendation :=
  { id := "load_shifting"
    description := "Reschedule non-critical production and charging tasks to the 12:00-16:00 window when grid carbon intensity dips to "
      ++ fmtQ grid_intensity ++ " kg CO₂/kWh."
    energy_savings_kwh := pyRound1 (max (total_energy * (5 / 100)) 25)
    complexity := "low"
    timeline := "short-term"
    category := "operations"
    rationale := "Flattening demand during peak-tariff hours avoids unnecessary compressor cycling and reduces marginal emissions by leveraging lower-carbon supply periods." }

/-- The loop body for one anomaly (`continue` on a non-positive deviation is
`none`). -/
def anomaly_recommendation (a : AnomalyDict) : Option Recommendation :=
  let deviation := max (a.current.getD 0 - a.baseline.getD 0) 0
  if deviation ≤ 0 then none
  else some
    { id := "resolve_" ++ a.facility.getD "facility" ++ "_anomaly"
      description := "Investigate the " ++ a.ty.getD "energy" ++ " pattern at "
        ++ a.facility.getD "the facility" ++ " and rebalance equipment loads."
      energy_savings_kwh := pyRound1 (max (deviation * (9 / 10)) 20)
      complexity := if a.severity = some "high" then "medium" else "low"
      timeline := "immediate"
      category := "anomaly_response"
      rationale := "Current draw is " ++ fmtQ (a.deviation_pct.getD 0)
        ++ "% above baseline. Resetting setpoints and sequencing equipment typically recovers most of the excess energy." }

/-- The lighting/controls tune-up recommendation. -/
def lighting_recommendation (total_emissions : ℚ) : Recommendation :=
  { id := "lighting_controls"
    description := "Calibrate occupancy sensors and daylight harvesting in common areas, and enforce automatic shutdown of decorative lighting."
    energy_savings_kwh :=
      pyRound1 (max (total_emissions * (4 / 100) / EMISSION_FACTOR_ELECTRICITY) 18)
    complexity := "low"
    timeline := "short-term"
    category := "lighting"
    rationale := "Audit results show lighting persists near full output in multiple zones despite partial occupancy. Fine-tuning controls routinely captures 3-5% site-wide savings." }

/-- `EcoPlannerAgent._generate_rule_based_recommendations`: HVAC and
load-shifting first, then one remediation per positive-deviation anomaly
among the first three, then the lighting tune-up. -/
def generate_rule_based_recommendations (ctx : RuleContext) : List Recommendation :=
  let total_energy := pyOrQ ctx.total_energy_kwh (ctx.baseline_energy_kwh.getD 950)
  let total_emissions :=
    pyOrQ ctx.total_emissions_kg_co2 (total_energy * EMISSION_FACTOR_ELECTRICITY)
  let grid_intensity := ctx.grid_carbon_intensity.getD EMISSION_FACTOR_ELECTRICITY
  [hvac_recommendation total_energy,
   load_shifting_recommendation total_energy grid_intensity]
    ++ (ctx.anomalies.take 3).filterMap anomaly_recommendation
    ++ [lighting_recommendation total_emissions]

/-- Rounding half to even never rounds below the floor. -/
theorem roundHalfEven_ge_floor (q : ℚ) : ⌊q⌋ ≤ roundHalfEven q := by
  unfold roundHalfEven
  dsimp only
  split
  · exact le_rfl
  · split
    · omega
    · split
      · exact le_rfl
      · omega

/-- `round(x, 1)` of a quantity that is at least 1 is positive. -/
theorem pyRound1_pos {q : ℚ} (h : 1 ≤ q) : 0 < pyRound1 q := by
  have h10 : (10 : ℚ) ≤ q * 10 := by linarith
  have hfl : (10 : ℤ) ≤ ⌊q * 10⌋ := Int.le_floor.mpr (by exact_mod_cast h10)
  have hr : (10 : ℤ) ≤ roundHalfEven (q * 10) :=
    le_trans hfl (roundHalfEven_ge_floor _)
  have hq : (10 : ℚ) ≤ (roundHalfEven (q * 10) : ℚ) := by exact_mod_cast hr
  unfold pyRound1
  linarith

/-- A string starting with a non-empty string is non-empty. -/
theorem str_append_ne_empty_left {s t : String} (h : s ≠ "") : s ++ t ≠ "" := by
  intro hc
  apply h
  have hd := congrArg String.data hc
  rw [String.data_append] at hd
  have hnil : String.data "" = [] := rfl
  rw [hnil] at hd
  have hs : s.data = [] := (List.append_eq_nil.mp hd).1
  cases s with
  | mk d => exact congrArg String.mk hs

/-- C3: on every context (the empty one included) the rule-based generator
returns between 3 and 6 recommendations, each with every required field
populated and a strictly positive `energy_savings_kwh`. -/
theorem rule_based_recommendations_spec (ctx : RuleContext) :
    3 ≤ (generate_rule_based_recommendations ctx).length ∧
    (generate_rule_based_recommendations ctx).length ≤ 6 ∧
    ∀ r ∈ generate_rule_based_recommendations ctx,
      0 < r.energy_savings_kwh ∧ r.id ≠ "" ∧ r.description ≠ "" ∧
      r.complexity ≠ "" ∧ r.timeline ≠ "" ∧ r.category ≠ "" ∧ r.rationale ≠ "" := by
  have hlen : (generate_rule_based_recommendations ctx).length
      = 3 + ((ctx.anomalies.take 3).filterMap anomaly_recommendation).length := by
    unfold generate_rule_based_recommendations
    dsimp only
    rw [List.length_append, List.length_append]
    simp only [List.length_cons, List.length_nil]
    omega
  have hk : ((ctx.anomalies.take 3).filterMap anomaly_recommendation).length ≤ 3 :=
    le_trans (List.length_filterMap_le _ _) (List.length_take_le 3 ctx.anomalies)
  refine ⟨by omega, by omega, ?_⟩
  intro r hr
  unfold generate_rule_based_recommendations at hr
  dsimp only at hr
  rw [List.mem_append, List.mem_append] at hr
  rcases hr with (hr | hr) | hr
  · simp only [List.mem_cons, List.not_mem_nil, or_false] at hr
    rcases hr with rfl | rfl
    · dsimp only [hvac_recommendation]
      exact ⟨pyRound1_pos (le_trans (by norm_num) (le_max_right _ 35)),
        by decide, by decide, by decide, by decide, by decide,
        str_append_ne_empty_left (str_append_ne_empty_left (by decide))⟩
    · dsimp only [load_shifting_recommendation]
      exact ⟨pyRound1_pos (le_trans (by norm_num) (le_max_right _ 25)),
        by decide,
        str_append_ne_empty_left (str_append_ne_empty_left (by decide)),
        by decide, by decide, by decide, by decide⟩
  · rw [List.mem_filterMap] at hr
    obtain ⟨a, _, heq⟩ := hr
    unfold anomaly_recommendation at heq
    dsimp only at heq
    split at heq
    · exact absurd heq (by simp)
    · rw [Option.some.injEq] at heq
      subst heq
      dsimp only
      refine ⟨pyRound1_pos (le_trans (by norm_num) (le_max_right _ 20)),
        str_append_ne_empty_left (str_append_ne_empty_left (by decide)),
        str_append_ne_empty_left (str_append_ne_empty_left
          (str_append_ne_empty_left (str_append_ne_empty_left (by decide)))),
        ?_, by decide, by decide,
        str_append_ne_empty_left (str_append_ne_empty_left (by decide))⟩
      split
      · decide
      · decide
  · simp only [List.mem_cons, List.not_mem_nil, or_false] at hr
    subst hr
    dsimp only [lighting_recommendation]
    exact ⟨pyRound1_pos (le_trans (by norm_num) (le_max_right _ 18)),
      by decide, by decide, by decide, by decide, by decide, by decide⟩

/-- The empty context mapping: every `.get` misses. -/
def emptyRuleContext : RuleContext := ⟨none, none, [], none, none⟩

/-- Witness for `rule_based_recommendations_spec` at the empty context. -/
theorem rule_based_recommendations_spec_witness :
    3 ≤ (generate_rule_based_recommendations emptyRuleContext).length ∧
    (generate_rule_based_recommendations emptyRuleContext).length ≤ 6 :=
  ⟨(rule_based_recommendations_spec emptyRuleContext).1,
   (rule_based_recommendations_spec emptyRuleContext).2.1⟩

/-- Witness for `plan_recommendations_sorted_truncated_stable` at concrete
recommendations and the key value 5. -/
theorem plan_recommendations_sorted_truncated_stable_witness :
    (prioritize_and_format "t0" ecoWitnessRecs).recommendations.length
      ≤ MAX_RECOMMENDATIONS ∧
    ((prioritize_and_format "t0" ecoWitnessRecs).recommendations.filter
        (fun r => decide (co2Of r = 5))).IsPrefix
      (ecoWitnessRecs.filter (fun r => decide (co2Of r = 5))) :=
  ⟨(plan_recommendations_sorted_truncated_stable "t0" ecoWitnessRecs).1,
   (plan_recommendations_sorted_truncated_stable "t0" ecoWitnessRecs).2.2 5⟩

/-! ### MemoryBank.store_plan (memory/memory_bank.py) -/

/-- A row of the `plans` table (`id INTEGER PRIMARY KEY AUTOINCREMENT,
timestamp, recommendations, total_co2_savings, status`);
`recommendations_json` stands for `json.dumps(plan.get("recommendations",
[]))`. -/
structure PlanRow where
  id : Nat
  timestamp : Option String
  recommendations_json : List EnrichedRecommendation
  total_co2_savings : ℚ
  status : String
deriving DecidableEq

/-- `MemoryBank.store_plan`: insert a row into the `plans` table (SQLite
assigns the next AUTOINCREMENT id) and commit — and then fall off the end of
the function without a `return` statement, so the caller receives Python's
`None`, modelled as the `none` second component. -/
def store_plan (db : List PlanRow) (plan : Plan) : List PlanRow × Option Nat :=
  (db ++ [{ id := db.length + 1
            timestamp := some plan.timestamp
            recommendations_json := plan.recommendations
            total_co2_savings := plan.total_co2_savings_kg
            status := "pending" }],
   none)

/-- C6 (code bug): `store_plan` never returns the plan identifier it just
caused SQLite to assign — it has no `return` statement, so
`plan_id = self.memory_bank.store_plan(final_plan)` in
`EcoPlannerAgent.execute` always binds `plan_id` (and hence the Plan's
`plan_id` field) to `None`, not a valid identifier. -/
theorem store_plan_returns_none (db : List PlanRow) (plan : Plan) :
    (store_plan db plan).2 = none := rfl

/-- Witness for `store_plan_returns_none`: storing the empty-recommendations
plan into a fresh table still hands back no identifier. -/
theorem store_plan_returns_none_witness :
    (store_plan [] (prioritize_and_format "2024-01-01T00:00:00" [])).2 = none :=
  store_plan_returns_none [] (prioritize_and_format "2024-01-01T00:00:00" [])

/-! ### MultiAgentOrchestrator.run_cycle (agents/orchestrator.py) -/

/-- What `run_cycle` hands back: either the plan produced in the `try` block,
or the `{"error": str(e), "status": "failed", "timestamp": ...}` dict built in
the `except` handler. -/
inductive CycleResult (PlanT : Type) where
  | completed (plan : PlanT)
  | failed (error : String) (status : String) (timestamp : String)

/-- `MultiAgentOrchestrator.run_cycle` as a function of the phase behaviours.
`initial_context` is `context or {}`; `planner_missing` is the
`{"error": "EcoPlanner not available"}` dict used when no EcoPlanner agent is
registered; `store_result` is the phase-3
`memory_bank.store_orchestration_result(...)` call; `now` is
`datetime.now().isoformat()`.  The `try` block spans all three phases; any
`.error` escaping it is converted by the `except` handler into a
`failed`-result instead of propagating. -/
def run_cycle {Ctx PlanT : Type} (hasDataScout hasEcoPlanner : Bool)
    (initial_context : Ctx)
    (dataScout : Ctx → Except String Ctx)
    (ecoPlanner : Ctx → Except String PlanT)
    (planner_missing : PlanT)
    (store_result : Ctx → PlanT → Except String Unit)
    (now : String) : CycleResult PlanT :=
  let tryBlock : Except String PlanT :=
    match if hasDataScout then dataScout initial_context else .ok initial_context with
    | .error e => .error e
    | .ok context_package =>
      match if hasEcoPlanner then ecoPlanner context_package else .ok planner_missing with
      | .error e => .error e
      | .ok plan =>
        match store_result context_package plan with
        | .error e => .error e
        | .ok _ => .ok plan
  match tryBlock with
  | .ok plan => .completed plan
  | .error e => .failed e "failed" now

/-- C9: `run_cycle` never propagates an exception from an agent phase: if the
Data Scout phase fails, or it succeeds and the EcoPlanner phase fails, the
cycle returns the failed-result object carrying the error message, status
`"failed"` and the timestamp. -/
theorem run_cycle_catches_agent_exceptions {Ctx PlanT : Type}
    (hasEcoPlanner : Bool) (initial_context : Ctx)
    (dataScout : Ctx → Except String Ctx) (ecoPlanner : Ctx → Except String PlanT)
    (planner_missing : PlanT) (store_result : Ctx → PlanT → Except String Unit)
    (now : String) :
    (∀ e, dataScout initial_context = .error e →
      run_cycle true hasEcoPlanner initial_context dataScout ecoPlanner
          planner_missing store_result now
        = .failed e "failed" now) ∧
    (∀ ctx e, dataScout initial_context = .ok ctx → ecoPlanner ctx = .error e →
      run_cycle true true initial_context dataScout ecoPlanner
          planner_missing store_result now
        = .failed e "failed" now) := by
  constructor
  · intro e he
    unfold run_cycle
    rw [if_pos rfl, he]
  · intro ctx e hctx he
    unfold run_cycle
    rw [if_pos rfl, hctx]
    dsimp only
    rw [if_pos rfl, he]

/-- Witness for `run_cycle_catches_agent_exceptions`: a Data Scout failure at
concrete phase behaviours becomes a failed-cycle result. -/
theorem run_cycle_catches_agent_exceptions_witness :
    run_cycle true true (0 : Nat) (fun _ => Except.error "sensor feed offline")
        (fun c : Nat => Except.ok c) 0 (fun _ _ => Except.ok ()) "2024-01-01T00:00:00"
      = CycleResult.failed "sensor feed offline" "failed" "2024-01-01T00:00:00" :=
  (run_cycle_catches_agent_exceptions true 0 (fun _ => Except.error "sensor feed offline")
    (fun c : Nat => Except.ok c) 0 (fun _ _ => Except.ok ()) "2024-01-01T00:00:00").1
    "sensor feed offline" rfl

end GreenWise
